import Mathlib

/-!
Verification of the feed-forward network training/inference core
(`src/methods/ann/ffn_impl.hpp` of mlpack).

The FFN engine is shallowly embedded: the mutable C++ object becomes an
explicit state record (`FFNState`), every member function becomes a state
passing Lean function, and a C++ `throw` becomes the `Res.err` constructor
(which carries the state the object is left in, since a throwing call leaves
the C++ object alive).  The external collaborators of the core (the layer
graph `MultiLayer`, the output layer, the weight initializer and the
ensmallen optimizer) are not part of the excerpt; following the
specification they are treated as opaque capability records (`Sem`) of pure
functions.  Armadillo matrices are modelled column-major as a list of
columns of rationals together with the bookkeeping fields `n_rows` and
`n_cols` that `set_size` manipulates.
-/

namespace MlpackFFN

/-- Column-major Armadillo matrix model: `cols` is the list of columns,
each a list of rational entries.  `n_rows` and `n_cols` are the size
bookkeeping fields written by `set_size`. -/
structure Mat where
  n_rows : Nat
  n_cols : Nat
  cols : List (List Rat)
deriving DecidableEq

/-- `arma::Mat::n_elem`. -/
def Mat.n_elem (m : Mat) : Nat := m.n_rows * m.n_cols

/-- A default-constructed (or `.clear()`-ed) matrix. -/
def matEmpty : Mat := Mat.mk 0 0 []

/-- `set_size(r, c)` leaves the contents unspecified; every read in the
translated code is preceded by an overwrite, so the unspecified contents
are modelled as an empty column list. -/
def Mat.unset (r c : Nat) : Mat := Mat.mk r c []

/-- The submatrix `m.cols(first, last)` (data part, bounds already checked). -/
def Mat.colsSlice (m : Mat) (first last : Nat) : Mat :=
  Mat.mk m.n_rows (last + 1 - first) ((m.cols.drop first).take (last + 1 - first))

/-- `arma::Mat::cols(first, last)`: Armadillo raises an out-of-bounds
logic error when `first > last` or `last >= n_cols`; this is modelled by
`none`. -/
def Mat.colsRange (m : Mat) (first last : Nat) : Option Mat :=
  if first ≤ last ∧ last < m.n_cols then some (m.colsSlice first last) else none

/-- Element-wise `operator+=` on equally sized matrices. -/
def Mat.add (a b : Mat) : Mat :=
  Mat.mk a.n_rows a.n_cols (List.zipWith (List.zipWith (· + ·)) a.cols b.cols)

/-- `out.set_size(r, c)` followed by an external routine filling `out`:
the size bookkeeping comes from `set_size`, the contents from the
collaborator function. -/
def Mat.resizeMeta (r c : Nat) (m : Mat) : Mat := Mat.mk r c m.cols

/-- The state of an `FFN` object (its data members), together with the
data members of the owned layer graph that the core reads and writes:
`numLayers` is `network.Network().size()`, `netInputDimensions` is
`network.InputDimensions()` and `netTraining` is `network.Training()`. -/
structure FFNState where
  numLayers : Nat
  netInputDimensions : List Nat
  netTraining : Bool
  parameters : Mat
  inputDimensions : List Nat
  predictors : Mat
  responses : Mat
  networkOutput : Mat
  networkDelta : Mat
  error : Mat
  training : Bool
  layerMemoryIsSet : Bool
  inputDimensionsAreSet : Bool
deriving DecidableEq

/-- Behaviour of the external collaborators, as pure functions.  The layer
graph operations depend on the graph input dimensions (this captures
`ComputeOutputDimensions`) and on the bound weight buffer, which the
translated code passes explicitly.

Modelled from the spec: the layer graph implementation (`MultiLayer`), the
output layer, the initialization rule and the optimizer are outside the
excerpt.  Per the specification the graph maps an input batch to an output
batch by processing every example (column) independently and
deterministically (`forwardCol`), reports `OutputSize`/`WeightSize` as
functions of its input dimensions, and contributes an auxiliary `Loss`. -/
structure Sem where
  outputSize : List Nat → Nat
  weightSize : List Nat → Nat
  forwardCol : List Nat → Mat → List Rat → List Rat
  netLoss : List Nat → Mat → Rat
  outFwd : Mat → Mat → Rat
  outBwd : Mat → Mat → Mat
  netBwd : List Nat → Mat → Mat → Mat → Mat
  netGrad : List Nat → Mat → Mat → Mat → Mat
  initWeight : Nat → Nat → Rat
  optimize : FFNState → Rat × FFNState

/-- Result of a call on the FFN object: either a normal return carrying the
returned value and the post state, or a thrown error message together with
the state the object is left in. -/
inductive Res (α : Type) where
  | ok : α → FFNState → Res α
  | err : String → FFNState → Res α
deriving DecidableEq

/-- The state the object is left in, after a normal or a throwing call. -/
def Res.state {α : Type} : Res α → FFNState
  | Res.ok _ s => s
  | Res.err _ s => s

/-- Whether the call threw. -/
def Res.isErr {α : Type} : Res α → Bool
  | Res.ok _ _ => false
  | Res.err _ _ => true

/-- The returned value, with a default for the throwing case. -/
def Res.getD {α : Type} : Res α → α → α
  | Res.ok v _, _ => v
  | Res.err _ _, d => d

def noLayersMsg (fn : String) : String :=
  fn ++ ": cannot use network with no layers!"

def sizeMismatchMsg (fn : String) : String :=
  fn ++ ": input size does not match expected size set with InputDimensions()!"

def layerMemoryMsg : String :=
  "FFN::SetLayerMemory(): total layer weight size does not match parameter size!"

def outOfBoundsMsg : String :=
  "Mat::cols(): indices out of bounds or incorrectly used"

def trainName : String := "FFN::Train()"
def predictName : String := "FFN::Predict()"
def forwardName : String := "FFN::Forward()"
def evaluateName : String := "FFN::Evaluate()"
def ewgName : String := "FFN::EvaluateWithGradient()"
def resetName : String := "FFN::Reset()"

/-- `FFN::SetNetworkMode`: sets the mode flag and broadcasts it to the
layer graph. -/
def setNetworkMode (t : Bool) (s : FFNState) : FFNState :=
  { s with training := t, netTraining := t }

/-- `FFN::ResetData`: replace the stored dataset and switch to training
mode. -/
def resetData (p r : Mat) (s : FFNState) : FFNState :=
  setNetworkMode true { s with predictors := p, responses := r }

/-- The parameter buffer produced by
`NetworkInitialization::Initialize(network.Network(), parameters)`: a
column vector of the total weight size, filled by the initialization
rule. -/
def initMat (sem : Sem) (n : Nat) : Mat :=
  Mat.mk n 1 [(List.range n).map (sem.initWeight n)]

/-- `FFN::InitializeWeights`: switch to testing mode, then fill the
parameter buffer with the initialization rule. -/
def initializeWeights (sem : Sem) (s : FFNState) : FFNState :=
  { setNetworkMode false s with
      parameters := initMat sem (sem.weightSize s.netInputDimensions) }

/-- `FFN::SetLayerMemory`: the `Log::Assert` that the total layer weight
size matches the parameter count is modelled as a fatal error; on success
the weight aliases are bound (`network.SetWeights`, captured by the flag,
since the translated layer operations read the buffer explicitly). -/
def setLayerMemory (sem : Sem) (s : FFNState) : Res Unit :=
  if sem.weightSize s.netInputDimensions = s.parameters.n_elem then
    Res.ok () { s with layerMemoryIsSet := true }
  else
    Res.err layerMemoryMsg s

/-- The input dimensions after the defaulting step of
`FFN::UpdateDimensions`: a completely unset shape is assumed flat. -/
def effectiveDims (dims : List Nat) (d : Nat) : List Nat :=
  if dims = [] then [d] else dims

/-- `FFN::UpdateDimensions`: default an unset shape to flat, reject a
nonzero dimensionality argument that disagrees with the product of the
recorded shape, and otherwise propagate the shape into the layer graph
(the `ComputeOutputDimensions` cascade is captured by the `Sem` operations
being functions of `netInputDimensions`), short-circuiting when the graph
already has this shape. -/
def updateDimensions (fn : String) (d : Nat) (s : FFNState) : Res Unit :=
  if (effectiveDims s.inputDimensions d).foldl (· * ·) 1 ≠ d ∧ d ≠ 0 then
    Res.err (sizeMismatchMsg fn)
      { s with inputDimensions := effectiveDims s.inputDimensions d }
  else if effectiveDims s.inputDimensions d = s.netInputDimensions then
    Res.ok () { s with
      inputDimensions := effectiveDims s.inputDimensions d,
      inputDimensionsAreSet := true }
  else
    Res.ok () { s with
      inputDimensions := effectiveDims s.inputDimensions d,
      netInputDimensions := effectiveDims s.inputDimensions d,
      inputDimensionsAreSet := true }

/-- Step 3 of `FFN::CheckNetwork`: initialize the parameter buffer when it
is empty (`is_empty`, i.e. `n_elem = 0`) or no longer matches the declared
weight size (clearing first, as the code does). -/
def paramStep (sem : Sem) (s : FFNState) : FFNState :=
  if s.parameters.n_elem = 0 then initializeWeights sem s
  else if s.parameters.n_elem ≠ sem.weightSize s.netInputDimensions then
    initializeWeights sem { s with parameters := matEmpty }
  else s

/-- Step 4 of `FFN::CheckNetwork`: bind the layer weight aliases unless
already bound. -/
def layerMemoryStep (sem : Sem) (s : FFNState) : Res Unit :=
  if s.layerMemoryIsSet then Res.ok () s else setLayerMemory sem s

/-- Step 5 of `FFN::CheckNetwork`: broadcast the requested mode. -/
def modeStep (setMode tr : Bool) (s : FFNState) : FFNState :=
  if setMode then setNetworkMode tr s else s

/-- `FFN::CheckNetwork`: the gatekeeping routine run at the top of every
public numerical entry point, in the load-bearing order of the source:
empty-graph check, dimension propagation (flag-gated), parameter buffer
(re)initialization, alias binding (flag-gated), mode broadcast. -/
def checkNetwork (sem : Sem) (fn : String) (d : Nat) (setMode tr : Bool)
    (s : FFNState) : Res Unit :=
  if s.numLayers = 0 then Res.err (noLayersMsg fn) s
  else
    match (if s.inputDimensionsAreSet then Res.ok () s
           else updateDimensions fn d s) with
    | Res.err e s2 => Res.err e s2
    | Res.ok _ s2 =>
      match layerMemoryStep sem (paramStep sem s2) with
      | Res.err e s4 => Res.err e s4
      | Res.ok _ s4 => Res.ok () (modeStep setMode tr s4)

/-- `FFN::CheckNetwork` instrumented with an event count: the same
computation, additionally reporting how many times `InitializeWeights`
and `SetLayerMemory` were invoked during the call. -/
def checkNetworkCounted (sem : Sem) (fn : String) (d : Nat) (setMode tr : Bool)
    (s : FFNState) : Res Unit × Nat × Nat :=
  if s.numLayers = 0 then (Res.err (noLayersMsg fn) s, 0, 0)
  else
    match (if s.inputDimensionsAreSet then Res.ok () s
           else updateDimensions fn d s) with
    | Res.err e s2 => (Res.err e s2, 0, 0)
    | Res.ok _ s2 =>
      match layerMemoryStep sem (paramStep sem s2) with
      | Res.err e s4 =>
        (Res.err e s4,
         if s2.parameters.n_elem = 0 ∨
            s2.parameters.n_elem ≠ sem.weightSize s2.netInputDimensions
           then 1 else 0,
         if s2.layerMemoryIsSet then 0 else 1)
      | Res.ok _ s4 =>
        (Res.ok () (modeStep setMode tr s4),
         if s2.parameters.n_elem = 0 ∨
            s2.parameters.n_elem ≠ sem.weightSize s2.netInputDimensions
           then 1 else 0,
         if s2.layerMemoryIsSet then 0 else 1)

/-- The layer graph forward pass on a batch: every column is mapped
independently; the output is sized `OutputSize × n_cols`. -/
def netForward (sem : Sem) (dims : List Nat) (params : Mat) (input : Mat) : Mat :=
  Mat.mk (sem.outputSize dims) input.n_cols
    (input.cols.map (sem.forwardCol dims params))

/-- `FFN::Forward(inputs, results)` (full-graph range): check the network,
store the forward output in the owned `networkOutput` buffer and copy it
to `results` (the returned value).  The `end < begin` guard of the
four-argument overload never fires for the full range. -/
def forward (sem : Sem) (inputs : Mat) (s : FFNState) : Res Mat :=
  match checkNetwork sem forwardName inputs.n_rows false false s with
  | Res.err e s2 => Res.err e s2
  | Res.ok _ s2 =>
    Res.ok (netForward sem s2.netInputDimensions s2.parameters inputs)
      { s2 with
          networkOutput := netForward sem s2.netInputDimensions s2.parameters inputs }

/-- The chunk loop of `FFN::Predict`, from column index `i`: process the
example columns in chunks of `bs` (the effective batch size
`min bs (n_cols - i)` of the last chunk may be smaller), running `Forward`
on a view of each chunk and collecting the output columns it writes into
the matching view of the results matrix.  For `bs = 0` and `i < n_cols`
the C++ loop would not advance; the claims only exercise `bs ≥ 1`. -/
def predictChunks (sem : Sem) (preds : Mat) (bs i : Nat) (s : FFNState) :
    Res (List (List Rat)) :=
  if h : preds.n_cols ≤ i ∨ bs = 0 then Res.ok [] s
  else
    match forward sem
        (Mat.mk preds.n_rows (min bs (preds.n_cols - i))
          ((preds.cols.drop i).take (min bs (preds.n_cols - i)))) s with
    | Res.err e s2 => Res.err e s2
    | Res.ok out s2 =>
      match predictChunks sem preds bs (i + bs) s2 with
      | Res.err e s3 => Res.err e s3
      | Res.ok rest s3 => Res.ok (out.cols ++ rest) s3
termination_by preds.n_cols - i
decreasing_by
  simp only [not_or, not_le] at h
  omega

/-- `FFN::Predict`: read-only network check (testing mode), allocate the
results matrix sized `OutputSize × n_cols`, then run the chunk loop. -/
def predict (sem : Sem) (preds : Mat) (bs : Nat) (s : FFNState) : Res Mat :=
  match checkNetwork sem predictName preds.n_rows true false s with
  | Res.err e s2 => Res.err e s2
  | Res.ok _ s2 =>
    match predictChunks sem preds bs 0 s2 with
    | Res.err e s3 => Res.err e s3
    | Res.ok outCols s3 =>
      Res.ok (Mat.mk (sem.outputSize s2.netInputDimensions) preds.n_cols outCols) s3

/-- `FFN::Backward`: total loss from the stored last forward output plus
the graph auxiliary loss; output-layer error, backward pass, and the
gradient sized exactly to the parameter buffer.  Returns
(loss, gradients, post state). -/
def backward (sem : Sem) (inputs targets : Mat) (s : FFNState) :
    Rat × Mat × FFNState :=
  (sem.outFwd s.networkOutput targets + sem.netLoss s.netInputDimensions s.parameters,
   Mat.resizeMeta s.parameters.n_rows s.parameters.n_cols
     (sem.netGrad s.netInputDimensions s.parameters inputs
        (sem.outBwd s.networkOutput targets)),
   { s with
       error := sem.outBwd s.networkOutput targets,
       networkDelta := sem.netBwd s.netInputDimensions s.parameters
         s.networkOutput (sem.outBwd s.networkOutput targets) })

/-- `FFN::Evaluate(predictors, responses)` (data variant): check the
network against the argument rows, forward the whole argument batch, and
return output-layer loss plus graph auxiliary loss. -/
def evaluateData (sem : Sem) (preds resps : Mat) (s : FFNState) : Res Rat :=
  match checkNetwork sem evaluateName preds.n_rows false false s with
  | Res.err e s2 => Res.err e s2
  | Res.ok _ s2 =>
    Res.ok (sem.outFwd (netForward sem s2.netInputDimensions s2.parameters preds) resps
            + sem.netLoss s2.netInputDimensions s2.parameters)
      { s2 with
          networkOutput := netForward sem s2.netInputDimensions s2.parameters preds }

/-- `FFN::Evaluate(parameters, begin, batchSize)` (optimizer variant): the
`parameters` argument content is ignored (the first C++ parameter is
unnamed); `(begin, batchSize)` indexes a column range of the previously
stored dataset. -/
def evaluateB (sem : Sem) (pArg : Mat) (b bs : Nat) (s : FFNState) : Res Rat :=
  match checkNetwork sem evaluateName s.predictors.n_rows false false s with
  | Res.err e s2 => Res.err e s2
  | Res.ok _ s2 =>
    match Mat.colsRange s2.predictors b (b + bs - 1) with
    | none =>
      Res.err outOfBoundsMsg
        { s2 with networkOutput := Mat.unset (sem.outputSize s2.netInputDimensions) bs }
    | some pslice =>
      match Mat.colsRange s2.responses b (b + bs - 1) with
      | none =>
        Res.err outOfBoundsMsg
          { s2 with
              networkOutput := netForward sem s2.netInputDimensions s2.parameters pslice }
      | some rslice =>
        Res.ok (sem.outFwd (netForward sem s2.netInputDimensions s2.parameters pslice) rslice
                + sem.netLoss s2.netInputDimensions s2.parameters)
          { s2 with
              networkOutput := netForward sem s2.netInputDimensions s2.parameters pslice }

/-- The loop of the full-dataset `FFN::Evaluate(parameters)`: accumulate
the size-one mini-batch objectives over the given example indices. -/
def evalLoop (sem : Sem) (pArg : Mat) : List Nat → Rat → FFNState → Res Rat
  | [], acc, s => Res.ok acc s
  | i :: rest, acc, s =>
    match evaluateB sem pArg i 1 s with
    | Res.err e s2 => Res.err e s2
    | Res.ok v s2 => evalLoop sem pArg rest (acc + v) s2

/-- `FFN::Evaluate(parameters)` (full dataset): sum of the per-example
mini-batch evaluations. -/
def evaluateFull (sem : Sem) (pArg : Mat) (s : FFNState) : Res Rat :=
  evalLoop sem pArg (List.range s.predictors.n_cols) 0 s

/-- `FFN::EvaluateWithGradient(parameters, begin, gradient, batchSize)`
(mini-batch variant): one forward, output-layer loss, backward and
gradient cycle over the column range; the gradient is sized to the stored
parameter buffer. -/
def ewgB (sem : Sem) (pArg : Mat) (b bs : Nat) (s : FFNState) : Res (Rat × Mat) :=
  match checkNetwork sem ewgName s.predictors.n_rows false false s with
  | Res.err e s2 => Res.err e s2
  | Res.ok _ s2 =>
    match Mat.colsRange s2.predictors b (b + bs - 1) with
    | none =>
      Res.err outOfBoundsMsg
        { s2 with networkOutput := Mat.unset (sem.outputSize s2.netInputDimensions) bs }
    | some pslice =>
      match Mat.colsRange s2.responses b (b + bs - 1) with
      | none =>
        Res.err outOfBoundsMsg
          { s2 with
              networkOutput := netForward sem s2.netInputDimensions s2.parameters pslice }
      | some rslice =>
        Res.ok
          (sem.outFwd (netForward sem s2.netInputDimensions s2.parameters pslice) rslice
             + sem.netLoss s2.netInputDimensions s2.parameters,
           Mat.resizeMeta s2.parameters.n_rows s2.parameters.n_cols
             (sem.netGrad s2.netInputDimensions s2.parameters pslice
                (sem.outBwd (netForward sem s2.netInputDimensions s2.parameters pslice)
                   rslice)))
          { s2 with
              networkOutput := netForward sem s2.netInputDimensions s2.parameters pslice,
              error := sem.outBwd
                (netForward sem s2.netInputDimensions s2.parameters pslice) rslice,
              networkDelta := Mat.resizeMeta s2.predictors.n_rows bs
                (sem.netBwd s2.netInputDimensions s2.parameters
                   (netForward sem s2.netInputDimensions s2.parameters pslice)
                   (sem.outBwd (netForward sem s2.netInputDimensions s2.parameters pslice)
                      rslice)) }

/-- The accumulation loop of the full-dataset
`FFN::EvaluateWithGradient`: per-example size-one passes into a fresh
temporary gradient, added element-wise into the accumulator. -/
def ewgLoop (sem : Sem) (pArg : Mat) : List Nat → Rat → Mat → FFNState → Res (Rat × Mat)
  | [], acc, g, s => Res.ok (acc, g) s
  | i :: rest, acc, g, s =>
    match ewgB sem pArg i 1 s with
    | Res.err e s2 => Res.err e s2
    | Res.ok vg s2 => ewgLoop sem pArg rest (acc + vg.1) (Mat.add g vg.2) s2

/-- `FFN::EvaluateWithGradient(parameters, gradient)` (full dataset): an
unconditional first size-one pass at column 0, then accumulation over the
remaining examples. -/
def ewgFull (sem : Sem) (pArg : Mat) (s : FFNState) : Res (Rat × Mat) :=
  match ewgB sem pArg 0 1 s with
  | Res.err e s2 => Res.err e s2
  | Res.ok vg s2 =>
    ewgLoop sem pArg ((List.range s.predictors.n_cols).drop 1) vg.1 vg.2 s2

/-- `FFN::Gradient(parameters, begin, gradient, batchSize)`: delegate to
`EvaluateWithGradient`, discarding the objective and keeping the filled
gradient. -/
def gradientFn (sem : Sem) (pArg : Mat) (b bs : Nat) (s : FFNState) : Res Mat :=
  match ewgB sem pArg b bs s with
  | Res.err e s2 => Res.err e s2
  | Res.ok vg s2 => Res.ok vg.2 s2

/-- `FFN::Train(predictors, responses, optimizer)`: replace the dataset
and switch to training mode (`ResetData`), warn (log only, not modelled),
check the network, then hand over to the external optimizer. -/
def train (sem : Sem) (p r : Mat) (s : FFNState) : Res Rat :=
  match checkNetwork sem trainName p.n_rows true true (resetData p r s) with
  | Res.err e s2 => Res.err e s2
  | Res.ok _ s2 => Res.ok (sem.optimize s2).1 (sem.optimize s2).2

/-- `FFN::Reset(inputDimensionality)`: clear the parameter buffer; with a
nonzero argument force dimension propagation with it, otherwise use
`std::accumulate(inputDimensions.begin(), inputDimensions.end(), 0)`,
which is the SUM of the stored dimensions (plus is the default operation
of `std::accumulate`). -/
def reset (sem : Sem) (d : Nat) (s : FFNState) : Res Unit :=
  if d ≠ 0 then
    checkNetwork sem resetName d true false { s with parameters := matEmpty }
  else
    checkNetwork sem resetName (s.inputDimensions.foldl (· + ·) 0) true false
      { s with parameters := matEmpty }

/-- The move constructor `FFN(FFN&&)`: moves every listed member, leaves
the scratch buffers default-constructed, manually resets
`layerMemoryIsSet` and MOVES `inputDimensionsAreSet` from the source. -/
def moveCtor (s : FFNState) : FFNState :=
  { s with
      networkOutput := matEmpty,
      networkDelta := matEmpty,
      error := matEmpty,
      layerMemoryIsSet := false }

/-- The move assignment `operator=(FFN&&)`: every data member, including
both readiness flags and the scratch buffers, is moved from the source. -/
def moveAssign (other : FFNState) : FFNState :=
  { numLayers := other.numLayers,
    netInputDimensions := other.netInputDimensions,
    netTraining := other.netTraining,
    parameters := other.parameters,
    inputDimensions := other.inputDimensions,
    predictors := other.predictors,
    responses := other.responses,
    networkOutput := other.networkOutput,
    networkDelta := other.networkDelta,
    error := other.error,
    training := other.training,
    layerMemoryIsSet := other.layerMemoryIsSet,
    inputDimensionsAreSet := other.inputDimensionsAreSet }

/-- The loading half of `FFN::serialize`: the dataset and the forward and
delta scratch buffers are cleared and both readiness flags reset. -/
def deserializeLoad (s : FFNState) : FFNState :=
  { s with
      predictors := matEmpty,
      responses := matEmpty,
      networkOutput := matEmpty,
      networkDelta := matEmpty,
      layerMemoryIsSet := false,
      inputDimensionsAreSet := false }

/-! ### Readiness, derived forms, and concrete instances -/

/-- A Core state on which `CheckNetwork` (with `setMode = false`) is a
no-op: nonempty graph, both readiness flags set, parameter buffer matching
the declared weight size, and — in the degenerate zero-weight case — the
buffer and mode exactly as `InitializeWeights` leaves them. -/
def Ready (sem : Sem) (s : FFNState) : Prop :=
  s.numLayers ≠ 0 ∧ s.inputDimensionsAreSet = true ∧ s.layerMemoryIsSet = true ∧
  s.parameters.n_elem = sem.weightSize s.netInputDimensions ∧
  (s.parameters.n_elem = 0 →
    s.parameters = initMat sem 0 ∧ s.training = false ∧ s.netTraining = false)

/-- The combined effect of steps 3 and 4 of `CheckNetwork` on the state. -/
def bindStep (sem : Sem) (s : FFNState) : FFNState :=
  if (paramStep sem s).layerMemoryIsSet then paramStep sem s
  else { paramStep sem s with layerMemoryIsSet := true }

/-- The scalar returned by a successful size-one mini-batch evaluation at
example `i` of a ready Core (steady-state value of
`Evaluate`/`EvaluateWithGradient`). -/
def exVal (sem : Sem) (s : FFNState) (i : Nat) : Rat :=
  sem.outFwd (netForward sem s.netInputDimensions s.parameters
      (s.predictors.colsSlice i i)) (s.responses.colsSlice i i)
    + sem.netLoss s.netInputDimensions s.parameters

/-- The `networkOutput` buffer after that evaluation. -/
def exOut (sem : Sem) (s : FFNState) (i : Nat) : Mat :=
  netForward sem s.netInputDimensions s.parameters (s.predictors.colsSlice i i)

/-- The output-layer error buffer after a size-one gradient pass at
example `i`. -/
def exErr (sem : Sem) (s : FFNState) (i : Nat) : Mat :=
  sem.outBwd (exOut sem s i) (s.responses.colsSlice i i)

/-- The gradient produced by a size-one gradient pass at example `i`
(sized exactly to the parameter buffer). -/
def exGrad (sem : Sem) (s : FFNState) (i : Nat) : Mat :=
  Mat.resizeMeta s.parameters.n_rows s.parameters.n_cols
    (sem.netGrad s.netInputDimensions s.parameters (s.predictors.colsSlice i i)
      (exErr sem s i))

/-- The backward-delta buffer after a size-one gradient pass. -/
def exDelta (sem : Sem) (s : FFNState) (i : Nat) : Mat :=
  Mat.resizeMeta s.predictors.n_rows 1
    (sem.netBwd s.netInputDimensions s.parameters (exOut sem s i) (exErr sem s i))

/-- A small concrete collaborator record (identity one-layer graph over
flat inputs) used to evaluate the theorems on explicit inputs. -/
def semA : Sem :=
  { outputSize := fun dims => dims.foldl (· * ·) 1,
    weightSize := fun dims => dims.foldl (· * ·) 1,
    forwardCol := fun _ _ c => c,
    netLoss := fun _ _ => 1,
    outFwd := fun pr tg =>
      ((pr.cols.map fun c => c.headD 0).sum) - ((tg.cols.map fun c => c.headD 0).sum),
    outBwd := fun pr _ => pr,
    netBwd := fun _ _ out _ => out,
    netGrad := fun _ _ inp _ => inp,
    initWeight := fun _ _ => 1,
    optimize := fun s => (0, s) }

/-- A collaborator record whose layer graph declares a zero total weight
size (a weightless layer, such as a pure activation). -/
def semZ : Sem :=
  { outputSize := fun _ => 1,
    weightSize := fun _ => 0,
    forwardCol := fun _ _ c => c,
    netLoss := fun _ _ => 0,
    outFwd := fun _ _ => 0,
    outBwd := fun pr _ => pr,
    netBwd := fun _ _ out _ => out,
    netGrad := fun _ _ inp _ => inp,
    initWeight := fun _ _ => 0,
    optimize := fun s => (0, s) }

/-- A ready one-layer Core with a two-example stored dataset. -/
def sA : FFNState :=
  { numLayers := 1,
    netInputDimensions := [1],
    netTraining := false,
    parameters := Mat.mk 1 1 [[5]],
    inputDimensions := [1],
    predictors := Mat.mk 1 2 [[1], [2]],
    responses := Mat.mk 1 2 [[1], [3]],
    networkOutput := matEmpty,
    networkDelta := matEmpty,
    error := matEmpty,
    training := false,
    layerMemoryIsSet := true,
    inputDimensionsAreSet := true }

/-- A ready one-layer Core whose stored dataset is empty. -/
def sNoData : FFNState :=
  { sA with predictors := Mat.mk 1 0 [], responses := Mat.mk 1 0 [] }

/-- A Core whose layer graph has no layers. -/
def sEmptyNet : FFNState :=
  { numLayers := 0,
    netInputDimensions := [],
    netTraining := false,
    parameters := matEmpty,
    inputDimensions := [],
    predictors := matEmpty,
    responses := matEmpty,
    networkOutput := matEmpty,
    networkDelta := matEmpty,
    error := matEmpty,
    training := false,
    layerMemoryIsSet := false,
    inputDimensionsAreSet := false }

/-- A freshly configured one-layer Core (no readiness flags yet). -/
def sZ : FFNState :=
  { sEmptyNet with numLayers := 1, netInputDimensions := [1], inputDimensions := [1] }

/-- A one-layer Core with multi-dimensional input shape `[2, 3]` whose
dimensions are not yet propagated (as after `InputDimensions() = {2, 3}`). -/
def sDims23 : FFNState :=
  { sEmptyNet with
      numLayers := 1,
      netInputDimensions := [2, 3],
      inputDimensions := [2, 3] }

/-- A one-column input matrix used by the witnesses. -/
def inW : Mat := Mat.mk 1 1 [[4]]

/-- A one-column target matrix used by the witnesses. -/
def tgtW : Mat := Mat.mk 1 1 [[2]]

theorem initMat_n_elem (sem : Sem) (n : Nat) : (initMat sem n).n_elem = n := by
  simp [initMat, Mat.n_elem]

theorem effectiveDims_prod_of_nil (d : Nat) :
    (effectiveDims [] d).foldl (· * ·) 1 = d := by
  simp [effectiveDims]

/-! ### UpdateDimensions lemmas -/

theorem updateDimensions_isErr (fn : String) (d : Nat) (s : FFNState) :
    (updateDimensions fn d s).isErr = true ↔
      d ≠ 0 ∧ (effectiveDims s.inputDimensions d).foldl (· * ·) 1 ≠ d := by
  unfold updateDimensions
  split
  · next hc =>
    simp only [Res.isErr, true_iff]
    exact ⟨hc.2, hc.1⟩
  · next hc =>
    split <;>
      (simp only [Res.isErr, Bool.false_eq_true, false_iff]
       exact fun hcon => hc ⟨hcon.2, hcon.1⟩)

theorem updateDimensions_err_state (fn : String) (d : Nat) (s : FFNState)
    (e : String) (s2 : FFNState) (h : updateDimensions fn d s = Res.err e s2) :
    s2 = s := by
  unfold updateDimensions at h
  split at h
  · next hc =>
    have hne : s.inputDimensions ≠ [] := by
      intro hnil
      rw [hnil] at hc
      exact hc.1 (effectiveDims_prod_of_nil d)
    injection h with h1 h2
    rw [← h2]
    simp [effectiveDims, hne]
  · split at h <;> exact absurd h (by simp)

theorem updateDimensions_ok_state (fn : String) (d : Nat) (s : FFNState)
    (s2 : FFNState) (h : updateDimensions fn d s = Res.ok () s2) :
    s2.inputDimensionsAreSet = true ∧ s2.numLayers = s.numLayers ∧
    s2.layerMemoryIsSet = s.layerMemoryIsSet ∧ s2.parameters = s.parameters ∧
    s2.training = s.training ∧ s2.netTraining = s.netTraining ∧
    s2.predictors = s.predictors ∧ s2.responses = s.responses := by
  unfold updateDimensions at h
  split at h
  · exact absurd h (by simp)
  · split at h <;> injection h with h1 h2 <;> rw [← h2] <;> simp

/-- A set readiness flag makes `UpdateDimensions` unreachable; on a ready
state the dimension-propagation step of `CheckNetwork` is skipped. -/
theorem updateDimensions_skip (s : FFNState) (h : s.inputDimensionsAreSet = true) :
    (if s.inputDimensionsAreSet then Res.ok () s else updateDimensions fn d s) =
      Res.ok () s := by
  rw [h]
  rfl

/-! ### Parameter and alias-binding step lemmas -/

theorem initializeWeights_fields (sem : Sem) (s : FFNState) :
    (initializeWeights sem s).netInputDimensions = s.netInputDimensions ∧
    (initializeWeights sem s).parameters =
      initMat sem (sem.weightSize s.netInputDimensions) ∧
    (initializeWeights sem s).training = false ∧
    (initializeWeights sem s).netTraining = false ∧
    (initializeWeights sem s).layerMemoryIsSet = s.layerMemoryIsSet ∧
    (initializeWeights sem s).inputDimensionsAreSet = s.inputDimensionsAreSet ∧
    (initializeWeights sem s).numLayers = s.numLayers := by
  simp [initializeWeights, setNetworkMode]

theorem paramStep_n_elem (sem : Sem) (s : FFNState) :
    (paramStep sem s).parameters.n_elem =
      sem.weightSize (paramStep sem s).netInputDimensions := by
  unfold paramStep
  split
  · simp [initializeWeights, setNetworkMode, initMat_n_elem]
  · split
    · simp [initializeWeights, setNetworkMode, initMat_n_elem]
    · next h2 =>
      rw [not_ne_iff] at h2
      exact h2

theorem paramStep_fields (sem : Sem) (s : FFNState) :
    (paramStep sem s).netInputDimensions = s.netInputDimensions ∧
    (paramStep sem s).layerMemoryIsSet = s.layerMemoryIsSet ∧
    (paramStep sem s).inputDimensionsAreSet = s.inputDimensionsAreSet ∧
    (paramStep sem s).numLayers = s.numLayers ∧
    (paramStep sem s).predictors = s.predictors ∧
    (paramStep sem s).responses = s.responses := by
  unfold paramStep
  split
  · simp [initializeWeights, setNetworkMode]
  · split
    · simp [initializeWeights, setNetworkMode]
    · simp

/-- After the parameter step the sizes agree, so the fatal assertion of
`SetLayerMemory` never fires inside `CheckNetwork`. -/
theorem layerMemoryStep_paramStep (sem : Sem) (s : FFNState) :
    layerMemoryStep sem (paramStep sem s) = Res.ok () (bindStep sem s) := by
  unfold layerMemoryStep setLayerMemory bindStep
  rw [← paramStep_n_elem sem s]
  simp only [if_pos rfl]
  split <;> rfl

theorem bindStep_facts (sem : Sem) (s : FFNState) :
    (bindStep sem s).layerMemoryIsSet = true ∧
    (bindStep sem s).inputDimensionsAreSet = s.inputDimensionsAreSet ∧
    (bindStep sem s).numLayers = s.numLayers ∧
    (bindStep sem s).netInputDimensions = s.netInputDimensions ∧
    (bindStep sem s).parameters = (paramStep sem s).parameters ∧
    (bindStep sem s).training = (paramStep sem s).training ∧
    (bindStep sem s).netTraining = (paramStep sem s).netTraining ∧
    (bindStep sem s).predictors = s.predictors ∧
    (bindStep sem s).responses = s.responses := by
  obtain ⟨f1, f2, f3, f4, f5, f6⟩ := paramStep_fields sem s
  unfold bindStep
  split
  · next hc => exact ⟨hc, f3, f4, f1, rfl, rfl, rfl, f5, f6⟩
  · exact ⟨rfl, f3, f4, f1, rfl, rfl, rfl, f5, f6⟩

/-- When the parameter buffer is empty after the parameter step, the step
ran `InitializeWeights` with a zero total weight size. -/
theorem paramStep_zero (sem : Sem) (s : FFNState)
    (h0 : (paramStep sem s).parameters.n_elem = 0) :
    (paramStep sem s).parameters = initMat sem 0 ∧
    (paramStep sem s).training = false ∧
    (paramStep sem s).netTraining = false := by
  by_cases hc1 : s.parameters.n_elem = 0
  · have he : paramStep sem s = initializeWeights sem s := by
      unfold paramStep
      rw [if_pos hc1]
    rw [he] at h0 ⊢
    have hw : sem.weightSize s.netInputDimensions = 0 := by
      simpa [initializeWeights, setNetworkMode, initMat_n_elem] using h0
    simp [initializeWeights, setNetworkMode, hw]
  · by_cases hc2 : s.parameters.n_elem ≠ sem.weightSize s.netInputDimensions
    · have he : paramStep sem s =
          initializeWeights sem { s with parameters := matEmpty } := by
        unfold paramStep
        rw [if_neg hc1, if_pos hc2]
      rw [he] at h0 ⊢
      have hw : sem.weightSize s.netInputDimensions = 0 := by
        simpa [initializeWeights, setNetworkMode, initMat_n_elem] using h0
      simp [initializeWeights, setNetworkMode, hw]
    · have he : paramStep sem s = s := by
        unfold paramStep
        rw [if_neg hc1, if_neg hc2]
      rw [he] at h0
      exact absurd h0 hc1

theorem setNetworkMode_self (t : Bool) (s : FFNState) (h1 : s.training = t)
    (h2 : s.netTraining = t) : setNetworkMode t s = s := by
  obtain ⟨nl, nid, nt, par, idim, pr, rs, no, nd, er, tr, lm, ids⟩ := s
  simp_all [setNetworkMode]

theorem initializeWeights_self (sem : Sem) (s : FFNState)
    (h0 : sem.weightSize s.netInputDimensions = 0)
    (hp : s.parameters = initMat sem 0) (h1 : s.training = false)
    (h2 : s.netTraining = false) : initializeWeights sem s = s := by
  obtain ⟨nl, nid, nt, par, idim, pr, rs, no, nd, er, tr, lm, ids⟩ := s
  simp_all [initializeWeights, setNetworkMode]

theorem paramStep_ready (sem : Sem) (s : FFNState) (h : Ready sem s) :
    paramStep sem s = s := by
  obtain ⟨h1, h2, h3, h4, h5⟩ := h
  by_cases h0 : s.parameters.n_elem = 0
  · obtain ⟨hp, ht, hnt⟩ := h5 h0
    unfold paramStep
    rw [if_pos h0]
    exact initializeWeights_self sem s (h4.symm.trans h0) hp ht hnt
  · unfold paramStep
    rw [if_neg h0, if_neg (not_ne_iff.mpr h4)]

/-! ### CheckNetwork lemmas -/

/-- A throwing `CheckNetwork` leaves the Core state untouched. -/
theorem checkNetwork_err_state (sem : Sem) (fn : String) (d : Nat) (m t : Bool)
    (s : FFNState) (e : String) (s2 : FFNState)
    (h : checkNetwork sem fn d m t s = Res.err e s2) : s2 = s := by
  unfold checkNetwork at h
  split at h
  · injection h with h1 h2
    exact h2.symm
  · split at h
    · next e2 s3 heq =>
      injection h with h1 h2
      subst h2
      by_cases hf : s.inputDimensionsAreSet = true
      · rw [updateDimensions_skip s hf] at heq
        exact Res.noConfusion heq
      · rw [if_neg hf] at heq
        exact updateDimensions_err_state fn d s e2 s3 heq
    · next _ s3 heq =>
      rw [layerMemoryStep_paramStep sem s3] at h
      exact Res.noConfusion h

/-- Postconditions of a successful `CheckNetwork`. -/
theorem checkNetwork_ok_post (sem : Sem) (fn : String) (d : Nat) (m t : Bool)
    (s s2 : FFNState) (h : checkNetwork sem fn d m t s = Res.ok () s2) :
    s.numLayers ≠ 0 ∧ s2.numLayers = s.numLayers ∧
    s2.inputDimensionsAreSet = true ∧ s2.layerMemoryIsSet = true ∧
    s2.parameters.n_elem = sem.weightSize s2.netInputDimensions ∧
    (s2.parameters.n_elem = 0 → s2.parameters = initMat sem 0) ∧
    (m = true → s2.training = t ∧ s2.netTraining = t) ∧
    (m = false → s2.parameters.n_elem = 0 →
      s2.training = false ∧ s2.netTraining = false) ∧
    s2.predictors = s.predictors ∧ s2.responses = s.responses := by
  unfold checkNetwork at h
  split at h
  · exact Res.noConfusion h
  · next h1 =>
    split at h
    · exact Res.noConfusion h
    · next _ s3 heq =>
      rw [layerMemoryStep_paramStep sem s3] at h
      injection h with _ hmode
      have hs3 : s3.inputDimensionsAreSet = true ∧ s3.numLayers = s.numLayers ∧
          s3.predictors = s.predictors ∧ s3.responses = s.responses := by
        by_cases hf : s.inputDimensionsAreSet = true
        · rw [updateDimensions_skip s hf] at heq
          injection heq with _ h3
          subst h3
          exact ⟨hf, rfl, rfl, rfl⟩
        · rw [if_neg hf] at heq
          have hu := updateDimensions_ok_state fn d s s3 heq
          exact ⟨hu.1, hu.2.1, hu.2.2.2.2.2.2.1, hu.2.2.2.2.2.2.2⟩
      obtain ⟨c1, c2, c3, c4⟩ := hs3
      obtain ⟨b1, b2, b3, b4, b5, b6, b7, b8, b9⟩ := bindStep_facts sem s3
      have hne : (bindStep sem s3).parameters.n_elem =
          sem.weightSize (bindStep sem s3).netInputDimensions := by
        rw [b5, b4, paramStep_n_elem sem s3, (paramStep_fields sem s3).1]
      subst hmode
      have hm0 : (modeStep m t (bindStep sem s3)).numLayers =
            (bindStep sem s3).numLayers ∧
          (modeStep m t (bindStep sem s3)).inputDimensionsAreSet =
            (bindStep sem s3).inputDimensionsAreSet ∧
          (modeStep m t (bindStep sem s3)).layerMemoryIsSet =
            (bindStep sem s3).layerMemoryIsSet ∧
          (modeStep m t (bindStep sem s3)).parameters =
            (bindStep sem s3).parameters ∧
          (modeStep m t (bindStep sem s3)).netInputDimensions =
            (bindStep sem s3).netInputDimensions ∧
          (modeStep m t (bindStep sem s3)).predictors =
            (bindStep sem s3).predictors ∧
          (modeStep m t (bindStep sem s3)).responses =
            (bindStep sem s3).responses := by
        cases m <;> exact ⟨rfl, rfl, rfl, rfl, rfl, rfl, rfl⟩
      obtain ⟨m1, m2, m3, m4, m5, m6, m7⟩ := hm0
      refine ⟨h1, m1.trans (b3.trans c2), m2.trans (b2.trans c1), m3.trans b1,
        ?_, ?_, ?_, ?_, m6.trans (b8.trans c3), m7.trans (b9.trans c4)⟩
      · rw [m4, m5]
        exact hne
      · intro h0
        rw [m4, b5] at h0 ⊢
        exact (paramStep_zero sem s3 h0).1
      · intro hm
        subst hm
        exact ⟨rfl, rfl⟩
      · intro hm h0
        subst hm
        have h0b : (paramStep sem s3).parameters.n_elem = 0 := by
          rw [← b5]
          exact h0
        have gt : (modeStep false t (bindStep sem s3)).training =
            (paramStep sem s3).training := b6
        have gn : (modeStep false t (bindStep sem s3)).netTraining =
            (paramStep sem s3).netTraining := b7
        rw [gt, gn]
        exact ⟨(paramStep_zero sem s3 h0b).2.1, (paramStep_zero sem s3 h0b).2.2⟩

/-- A successful `CheckNetwork` with testing mode (or no mode broadcast)
leaves a ready state. -/
theorem checkNetwork_ok_ready (sem : Sem) (fn : String) (d : Nat) (m t : Bool)
    (s s2 : FFNState) (hmt : m = false ∨ t = false)
    (h : checkNetwork sem fn d m t s = Res.ok () s2) : Ready sem s2 := by
  obtain ⟨p1, p2, p3, p4, p5, p6, p7, p8, _, _⟩ :=
    checkNetwork_ok_post sem fn d m t s s2 h
  refine ⟨by rw [p2]; exact p1, p3, p4, p5, ?_⟩
  intro h0
  refine ⟨p6 h0, ?_⟩
  rcases hmt with hm | ht
  · exact p8 hm h0
  · cases m
    · exact p8 rfl h0
    · subst ht
      exact p7 rfl

/-- On a ready state, `CheckNetwork` without a mode broadcast is the
identity. -/
theorem checkNetwork_noop (sem : Sem) (fn : String) (d : Nat) (t : Bool)
    (s : FFNState) (h : Ready sem s) :
    checkNetwork sem fn d false t s = Res.ok () s := by
  obtain ⟨h1, h2, h3, h4, h5⟩ := h
  unfold checkNetwork
  rw [if_neg h1, updateDimensions_skip s h2]
  simp only []
  rw [layerMemoryStep_paramStep sem s]
  simp only [bindStep, paramStep_ready sem s ⟨h1, h2, h3, h4, h5⟩, h3]
  rfl

/-- The second of two identical `CheckNetwork` calls rebinds nothing and
changes nothing; it re-runs `InitializeWeights` exactly when the parameter
buffer is empty (zero total weight size). -/
theorem checkNetwork_second (sem : Sem) (fn : String) (d : Nat) (m t : Bool)
    (s s2 : FFNState) (h : checkNetwork sem fn d m t s = Res.ok () s2) :
    checkNetworkCounted sem fn d m t s2 =
      (Res.ok () s2, (if s2.parameters.n_elem = 0 then 1 else 0), 0) := by
  obtain ⟨p1, p2, p3, p4, p5, p6, p7, p8, _, _⟩ :=
    checkNetwork_ok_post sem fn d m t s s2 h
  unfold checkNetworkCounted
  rw [if_neg (by rw [p2]; exact p1), updateDimensions_skip s2 p3]
  simp only []
  rw [layerMemoryStep_paramStep sem s2]
  by_cases h0 : s2.parameters.n_elem = 0
  · have hps : paramStep sem s2 = setNetworkMode false s2 := by
      unfold paramStep
      rw [if_pos h0]
      unfold initializeWeights
      rw [p5.symm.trans h0, ← p6 h0]
      rfl
    have hbind : bindStep sem s2 = setNetworkMode false s2 := by
      unfold bindStep
      rw [hps, if_pos (show (setNetworkMode false s2).layerMemoryIsSet = true from p4)]
    have hfinal : modeStep m t (setNetworkMode false s2) = s2 := by
      cases m
      · obtain ⟨q1, q2⟩ := p8 rfl h0
        exact setNetworkMode_self false s2 q1 q2
      · obtain ⟨q1, q2⟩ := p7 rfl
        exact setNetworkMode_self t s2 q1 q2
    simp only [hbind, hfinal, p4, if_true, if_pos h0, if_pos (Or.inl h0)]
  · have hps : paramStep sem s2 = s2 := by
      unfold paramStep
      rw [if_neg h0, if_neg (not_ne_iff.mpr p5)]
    have hbind : bindStep sem s2 = s2 := by
      unfold bindStep
      rw [hps, if_pos p4]
    have hfinal : modeStep m t s2 = s2 := by
      cases m
      · rfl
      · obtain ⟨q1, q2⟩ := p7 rfl
        exact setNetworkMode_self t s2 q1 q2
    simp only [hbind, hfinal, p4, if_true, if_neg h0,
      if_neg (show ¬(s2.parameters.n_elem = 0 ∨
        s2.parameters.n_elem ≠ sem.weightSize s2.netInputDimensions) from by
          rw [not_or, not_ne_iff]
          exact ⟨h0, p5⟩)]

/-! ### Steady-state behaviour of the evaluate family -/

theorem evaluateB_ready (sem : Sem) (p : Mat) (i : Nat) (s : FFNState)
    (h : Ready sem s) (hi : i < s.predictors.n_cols)
    (hr : i < s.responses.n_cols) :
    evaluateB sem p i 1 s =
      Res.ok (exVal sem s i) { s with networkOutput := exOut sem s i } := by
  unfold evaluateB
  rw [checkNetwork_noop sem evaluateName s.predictors.n_rows false s h]
  simp only [Nat.add_sub_cancel, Mat.colsRange]
  rw [if_pos (⟨le_refl i, hi⟩ : i ≤ i ∧ i < s.predictors.n_cols),
      if_pos (⟨le_refl i, hr⟩ : i ≤ i ∧ i < s.responses.n_cols)]
  rfl

theorem ewgB_ready (sem : Sem) (p : Mat) (i : Nat) (s : FFNState)
    (h : Ready sem s) (hi : i < s.predictors.n_cols)
    (hr : i < s.responses.n_cols) :
    ewgB sem p i 1 s =
      Res.ok (exVal sem s i, exGrad sem s i)
        { s with
            networkOutput := exOut sem s i,
            error := exErr sem s i,
            networkDelta := exDelta sem s i } := by
  unfold ewgB
  rw [checkNetwork_noop sem ewgName s.predictors.n_rows false s h]
  simp only [Nat.add_sub_cancel, Mat.colsRange]
  rw [if_pos (⟨le_refl i, hi⟩ : i ≤ i ∧ i < s.predictors.n_cols),
      if_pos (⟨le_refl i, hr⟩ : i ≤ i ∧ i < s.responses.n_cols)]
  rfl

theorem evalLoop_ready (sem : Sem) (p : Mat) (idxs : List Nat) :
    ∀ (acc : Rat) (s : FFNState), Ready sem s →
    (∀ i ∈ idxs, i < s.predictors.n_cols ∧ i < s.responses.n_cols) →
    ∃ x, evalLoop sem p idxs acc s =
      Res.ok (acc + (idxs.map (exVal sem s)).sum) { s with networkOutput := x } := by
  induction idxs with
  | nil =>
    intro acc s hr hb
    exact ⟨s.networkOutput, by simp [evalLoop]⟩
  | cons i rest ih =>
    intro acc s hr hb
    unfold evalLoop
    rw [evaluateB_ready sem p i s hr (hb i (List.mem_cons_self i rest)).1
      (hb i (List.mem_cons_self i rest)).2]
    dsimp only
    obtain ⟨x, hx⟩ := ih (acc + exVal sem s i)
      { s with networkOutput := exOut sem s i } hr
      (fun j hj => hb j (List.mem_cons_of_mem i hj))
    rw [hx]
    refine ⟨x, ?_⟩
    have he : exVal sem { s with networkOutput := exOut sem s i } = exVal sem s := rfl
    rw [he, List.map_cons, List.sum_cons, ← add_assoc]

theorem ewgLoop_ready (sem : Sem) (p : Mat) (idxs : List Nat) :
    ∀ (acc : Rat) (g : Mat) (s : FFNState), Ready sem s →
    (∀ i ∈ idxs, i < s.predictors.n_cols ∧ i < s.responses.n_cols) →
    ∃ x y z, ewgLoop sem p idxs acc g s =
      Res.ok (acc + (idxs.map (exVal sem s)).sum,
              (idxs.map (exGrad sem s)).foldl Mat.add g)
        { s with networkOutput := x, error := y, networkDelta := z } := by
  induction idxs with
  | nil =>
    intro acc g s hr hb
    exact ⟨s.networkOutput, s.error, s.networkDelta, by simp [ewgLoop]⟩
  | cons i rest ih =>
    intro acc g s hr hb
    unfold ewgLoop
    rw [ewgB_ready sem p i s hr (hb i (List.mem_cons_self i rest)).1
      (hb i (List.mem_cons_self i rest)).2]
    dsimp only
    obtain ⟨x, y, z, hx⟩ := ih (acc + exVal sem s i) (Mat.add g (exGrad sem s i))
      { s with
          networkOutput := exOut sem s i,
          error := exErr sem s i,
          networkDelta := exDelta sem s i } hr
      (fun j hj => hb j (List.mem_cons_of_mem i hj))
    rw [hx]
    refine ⟨x, y, z, ?_⟩
    have he : exVal sem { s with
        networkOutput := exOut sem s i,
        error := exErr sem s i,
        networkDelta := exDelta sem s i } = exVal sem s := rfl
    have hg : exGrad sem { s with
        networkOutput := exOut sem s i,
        error := exErr sem s i,
        networkDelta := exDelta sem s i } = exGrad sem s := rfl
    rw [he, hg, List.map_cons, List.sum_cons, ← add_assoc, List.map_cons,
      List.foldl_cons]

/-! ### Steady-state behaviour of Forward and Predict -/

theorem forward_ready (sem : Sem) (inputs : Mat) (s : FFNState) (h : Ready sem s) :
    forward sem inputs s =
      Res.ok (netForward sem s.netInputDimensions s.parameters inputs)
        { s with
            networkOutput := netForward sem s.netInputDimensions s.parameters inputs } := by
  unfold forward
  rw [checkNetwork_noop sem forwardName inputs.n_rows false s h]

theorem take_chunk_append {α : Type} (t : List α) (bs m : Nat) :
    t.take (min bs m) ++ (t.drop bs).take (m - bs) = t.take m := by
  by_cases hbm : m ≤ bs
  · have h1 : min bs m = m := min_eq_right hbm
    have h2 : m - bs = 0 := by omega
    rw [h1, h2]
    simp
  · have h1 : min bs m = bs := min_eq_left (by omega)
    rw [h1]
    have h2 : m = bs + (m - bs) := by omega
    conv_rhs => rw [h2]
    rw [List.take_add]

theorem predictChunks_ready (sem : Sem) (preds : Mat) (bs : Nat) (n : Nat) :
    ∀ (i : Nat) (s : FFNState), Ready sem s → bs ≠ 0 → preds.n_cols - i ≤ n →
    ∃ x, predictChunks sem preds bs i s =
      Res.ok (((preds.cols.drop i).take (preds.n_cols - i)).map
          (sem.forwardCol s.netInputDimensions s.parameters))
        { s with networkOutput := x } := by
  induction n with
  | zero =>
    intro i s hr hbs hle
    have hni : preds.n_cols ≤ i := by omega
    rw [predictChunks, dif_pos (Or.inl hni)]
    have h0 : preds.n_cols - i = 0 := by omega
    rw [h0]
    exact ⟨s.networkOutput, by simp⟩
  | succ n ih =>
    intro i s hr hbs hle
    by_cases hni : preds.n_cols ≤ i
    · rw [predictChunks, dif_pos (Or.inl hni)]
      have h0 : preds.n_cols - i = 0 := by omega
      rw [h0]
      exact ⟨s.networkOutput, by simp⟩
    · rw [predictChunks, dif_neg (by rw [not_or]; exact ⟨hni, hbs⟩)]
      rw [forward_ready sem _ s hr]
      dsimp only
      obtain ⟨x, hx⟩ := ih (i + bs)
        { s with
            networkOutput := netForward sem s.netInputDimensions s.parameters
              (Mat.mk preds.n_rows (min bs (preds.n_cols - i))
                ((preds.cols.drop i).take (min bs (preds.n_cols - i)))) }
        hr hbs (by omega)
      rw [hx]
      refine ⟨x, ?_⟩
      have hdd : preds.cols.drop (i + bs) = (preds.cols.drop i).drop bs :=
        (List.drop_drop bs i preds.cols).symm
      have hm2 : preds.n_cols - (i + bs) = preds.n_cols - i - bs := by omega
      have hlist : ((preds.cols.drop i).take (min bs (preds.n_cols - i))).map
            (sem.forwardCol s.netInputDimensions s.parameters) ++
          ((preds.cols.drop (i + bs)).take (preds.n_cols - (i + bs))).map
            (sem.forwardCol s.netInputDimensions s.parameters) =
          ((preds.cols.drop i).take (preds.n_cols - i)).map
            (sem.forwardCol s.netInputDimensions s.parameters) := by
        rw [hdd, hm2, ← List.map_append, take_chunk_append]
      exact congrArg (fun l => Res.ok l { s with networkOutput := x }) hlist

theorem range_eq_cons (n : Nat) (h : 1 ≤ n) :
    List.range n = 0 :: (List.range n).drop 1 := by
  cases n with
  | zero => omega
  | succ m =>
    rw [List.range_succ_eq_map]
    rfl

/-! ### Claims -/

/-- C1 (amended): with an empty layer graph, every public numerical entry
point raises the invalid-network error naming the caller.  For Predict,
Forward, both Evaluate variants (the full-dataset one provided at least
one stored example, since with zero examples its loop never runs
CheckNetwork), both EvaluateWithGradient variants and Gradient, the Core
state is left unchanged — the error precedes any dimension propagation,
weight initialization, alias binding or mode change.  Train raises the
same error naming Train, but only after ResetData has already replaced
the stored dataset and broadcast training mode, so its state is not
unchanged. -/
theorem claim_C1_amended (sem : Sem) (s : FFNState) (p r q : Mat) (b bs : Nat)
    (h : s.numLayers = 0) :
    predict sem q bs s = Res.err (noLayersMsg predictName) s ∧
    forward sem q s = Res.err (noLayersMsg forwardName) s ∧
    evaluateData sem q r s = Res.err (noLayersMsg evaluateName) s ∧
    evaluateB sem p b bs s = Res.err (noLayersMsg evaluateName) s ∧
    (1 ≤ s.predictors.n_cols →
      evaluateFull sem p s = Res.err (noLayersMsg evaluateName) s) ∧
    ewgB sem p b bs s = Res.err (noLayersMsg ewgName) s ∧
    ewgFull sem p s = Res.err (noLayersMsg ewgName) s ∧
    gradientFn sem p b bs s = Res.err (noLayersMsg ewgName) s ∧
    train sem p r s = Res.err (noLayersMsg trainName) (resetData p r s) := by
  have hchk : ∀ (fn : String) (d : Nat) (m t : Bool) (s2 : FFNState),
      s2.numLayers = 0 →
      checkNetwork sem fn d m t s2 = Res.err (noLayersMsg fn) s2 := by
    intro fn d m t s2 h2
    unfold checkNetwork
    rw [if_pos h2]
  have hEB : ∀ b2 bs2, evaluateB sem p b2 bs2 s =
      Res.err (noLayersMsg evaluateName) s := by
    intro b2 bs2
    unfold evaluateB
    rw [hchk evaluateName s.predictors.n_rows false false s h]
  have hEWG : ∀ b2 bs2, ewgB sem p b2 bs2 s =
      Res.err (noLayersMsg ewgName) s := by
    intro b2 bs2
    unfold ewgB
    rw [hchk ewgName s.predictors.n_rows false false s h]
  refine ⟨?_, ?_, ?_, hEB b bs, ?_, hEWG b bs, ?_, ?_, ?_⟩
  · unfold predict
    rw [hchk predictName q.n_rows true false s h]
  · unfold forward
    rw [hchk forwardName q.n_rows false false s h]
  · unfold evaluateData
    rw [hchk evaluateName q.n_rows false false s h]
  · intro hN
    unfold evaluateFull
    rw [range_eq_cons s.predictors.n_cols hN]
    unfold evalLoop
    rw [hEB 0 1]
  · unfold ewgFull
    rw [hEWG 0 1]
  · unfold gradientFn
    rw [hEWG b bs]
  · unfold train
    rw [hchk trainName p.n_rows true true (resetData p r s) h]

theorem claim_C1_witness :
    sEmptyNet.numLayers = 0 ∧
    predict semA inW 1 sEmptyNet = Res.err (noLayersMsg predictName) sEmptyNet ∧
    train semA inW tgtW sEmptyNet =
      Res.err (noLayersMsg trainName) (resetData inW tgtW sEmptyNet) :=
  ⟨by decide,
   (claim_C1_amended semA sEmptyNet inW tgtW inW 0 1 (by decide)).1,
   (claim_C1_amended semA sEmptyNet inW tgtW inW 0 1 (by decide)).2.2.2.2.2.2.2.2⟩

/-- C1 as stated is false for Train: on an empty layer graph, Train does
raise the invalid-network error, but only after the dataset has been
replaced and training mode broadcast, so the Core state is changed. -/
theorem claim_C1_counterexample :
    (train semA inW tgtW sEmptyNet).state ≠ sEmptyNet := by decide

/-- C2: right after a full-graph Forward on the same inputs, Backward
returns OutputLayer.Forward(lastForwardOutput, targets) plus the layer
graph loss, resizes the gradient to exactly
[parameters.n_rows, parameters.n_cols], and leaves the parameter buffer
untouched (no parameter update). -/
theorem claim_C2 (sem : Sem) (inputs targets : Mat) (s s2 : FFNState) (out : Mat)
    (h : forward sem inputs s = Res.ok out s2) :
    (backward sem inputs targets s2).1 =
      sem.outFwd (netForward sem s2.netInputDimensions s2.parameters inputs) targets
        + sem.netLoss s2.netInputDimensions s2.parameters ∧
    (backward sem inputs targets s2).2.1.n_rows = s2.parameters.n_rows ∧
    (backward sem inputs targets s2).2.1.n_cols = s2.parameters.n_cols ∧
    (backward sem inputs targets s2).2.2.parameters = s2.parameters := by
  have hno : s2.networkOutput =
      netForward sem s2.netInputDimensions s2.parameters inputs := by
    unfold forward at h
    split at h
    · exact Res.noConfusion h
    · injection h with h1 h2
      subst h2
      rfl
  refine ⟨?_, rfl, rfl, rfl⟩
  show sem.outFwd s2.networkOutput targets
      + sem.netLoss s2.netInputDimensions s2.parameters =
    sem.outFwd (netForward sem s2.netInputDimensions s2.parameters inputs) targets
      + sem.netLoss s2.netInputDimensions s2.parameters
  rw [hno]

theorem claim_C2_witness :
    (backward semA inW tgtW ((forward semA inW sA).state)).2.2.parameters =
      ((forward semA inW sA).state).parameters ∧
    (backward semA inW tgtW ((forward semA inW sA).state)).1 =
      semA.outFwd (netForward semA ((forward semA inW sA).state).netInputDimensions
          ((forward semA inW sA).state).parameters inW) tgtW
        + semA.netLoss ((forward semA inW sA).state).netInputDimensions
            ((forward semA inW sA).state).parameters :=
  have h : forward semA inW sA =
      Res.ok (Mat.mk 1 1 [[4]]) ((forward semA inW sA).state) := by decide
  ⟨(claim_C2 semA inW tgtW sA ((forward semA inW sA).state) (Mat.mk 1 1 [[4]]) h).2.2.2,
   (claim_C2 semA inW tgtW sA ((forward semA inW sA).state) (Mat.mk 1 1 [[4]]) h).1⟩

/-- C3 (amended): CheckNetwork is state-idempotent — a second identical
call returns the same result and leaves the state of the first call
unchanged (also in the throwing case, where the state is untouched
altogether); after a successful call both readiness flags are set, so the
second call never re-binds the layer weight aliases, and it re-runs
InitializeWeights exactly when the parameter buffer is empty, i.e. when
the layer graph declares a zero total weight size (in which case the
re-initialization still leaves the state unchanged). -/
theorem claim_C3_amended (sem : Sem) (fn : String) (d : Nat) (m t : Bool)
    (s : FFNState) :
    (∀ e s2, checkNetwork sem fn d m t s = Res.err e s2 →
      s2 = s ∧ checkNetwork sem fn d m t s2 = Res.err e s2) ∧
    (∀ s2, checkNetwork sem fn d m t s = Res.ok () s2 →
      s2.inputDimensionsAreSet = true ∧ s2.layerMemoryIsSet = true ∧
      checkNetworkCounted sem fn d m t s2 =
        (Res.ok () s2, (if s2.parameters.n_elem = 0 then 1 else 0), 0)) := by
  constructor
  · intro e s2 hE
    have hs := checkNetwork_err_state sem fn d m t s e s2 hE
    subst hs
    exact ⟨rfl, hE⟩
  · intro s2 hOk
    obtain ⟨_, _, p3, p4, _, _, _, _, _, _⟩ :=
      checkNetwork_ok_post sem fn d m t s s2 hOk
    exact ⟨p3, p4, checkNetwork_second sem fn d m t s s2 hOk⟩

theorem claim_C3_witness :
    ((checkNetwork semA evaluateName 1 false false sZ).state).inputDimensionsAreSet
        = true ∧
    checkNetworkCounted semA evaluateName 1 false false
        ((checkNetwork semA evaluateName 1 false false sZ).state) =
      (Res.ok () ((checkNetwork semA evaluateName 1 false false sZ).state),
       (if ((checkNetwork semA evaluateName 1 false false sZ).state).parameters.n_elem
          = 0 then 1 else 0), 0) :=
  have h : checkNetwork semA evaluateName 1 false false sZ =
      Res.ok () ((checkNetwork semA evaluateName 1 false false sZ).state) := by
    decide
  ⟨((claim_C3_amended semA evaluateName 1 false false sZ).2
      ((checkNetwork semA evaluateName 1 false false sZ).state) h).1,
   ((claim_C3_amended semA evaluateName 1 false false sZ).2
      ((checkNetwork semA evaluateName 1 false false sZ).state) h).2.2⟩

/-- C3 as stated is false: with a layer graph declaring zero total weight
size, the parameter buffer stays empty, so the second identical
CheckNetwork call re-runs InitializeWeights (invocation count 1, not 0),
even though the state does not change. -/
theorem claim_C3_counterexample :
    (checkNetworkCounted semZ evaluateName 1 false false
        ((checkNetwork semZ evaluateName 1 false false sZ).state)).2.1 = 1 := by
  decide

/-- C4 at the failing input: with stored input dimensions [2, 3] (product
6, not yet propagated), Reset(0) computes the SUM 5 of the dimensions —
`std::accumulate` starts at 0 with the default plus operation — and the
dimension check rejects 5 against the product 6 with the size-mismatch
error, while Reset(6) succeeds.  This contradicts the claim (and the
intent documented in the code) that Reset(0) recomputes the flat input
size, the product, and raises no error. -/
theorem claim_C4_bug :
    reset semA 0 sDims23 = Res.err (sizeMismatchMsg resetName) sDims23 ∧
    (reset semA 6 sDims23).isErr = false := by
  constructor
  · decide
  · decide

/-- C5 as stated is false: move construction keeps the source value of
`inputDimensionsAreSet` (here `true`) instead of resetting it. -/
theorem claim_C5_counterexample :
    ¬ ((moveCtor sA).inputDimensionsAreSet = false ∧
       (moveCtor sA).layerMemoryIsSet = false) := by decide

/-- C5 (amended): after deserialization both readiness flags are false;
after move construction `layerMemoryIsSet` is false but
`inputDimensionsAreSet` carries over the source value; move assignment
carries over both flags (the whole state) from the source. -/
theorem claim_C5_amended (s : FFNState) :
    (deserializeLoad s).layerMemoryIsSet = false ∧
    (deserializeLoad s).inputDimensionsAreSet = false ∧
    (moveCtor s).layerMemoryIsSet = false ∧
    (moveCtor s).inputDimensionsAreSet = s.inputDimensionsAreSet ∧
    moveAssign s = s :=
  ⟨rfl, rfl, rfl, rfl, rfl⟩

/-- C6: over a ready Core with N ≥ 1 stored examples, the full-dataset
Evaluate returns the sum of the N size-one mini-batch evaluations, and
the full-dataset EvaluateWithGradient returns that same objective sum
together with the element-wise sum of the N single-example gradients (the
left fold of the element-wise `Mat.add` starting from the first example's
gradient, exactly as the accumulation loop computes it). -/
theorem claim_C6 (sem : Sem) (p : Mat) (s : FFNState) (h : Ready sem s)
    (hn : 1 ≤ s.predictors.n_cols)
    (hr : s.responses.n_cols = s.predictors.n_cols) :
    ∃ (v : Nat → Rat) (g : Nat → Mat),
      (∀ i, i < s.predictors.n_cols →
        ∃ si, evaluateB sem p i 1 s = Res.ok (v i) si) ∧
      (∀ i, i < s.predictors.n_cols →
        ∃ si, ewgB sem p i 1 s = Res.ok (v i, g i) si) ∧
      (∃ s1, evaluateFull sem p s =
        Res.ok (((List.range s.predictors.n_cols).map v).sum) s1) ∧
      (∃ s2, ewgFull sem p s =
        Res.ok (((List.range s.predictors.n_cols).map v).sum,
          (((List.range s.predictors.n_cols).drop 1).map g).foldl Mat.add (g 0))
          s2) := by
  refine ⟨exVal sem s, exGrad sem s, ?_, ?_, ?_, ?_⟩
  · intro i hi
    exact ⟨_, evaluateB_ready sem p i s h hi (by rw [hr]; exact hi)⟩
  · intro i hi
    exact ⟨_, ewgB_ready sem p i s h hi (by rw [hr]; exact hi)⟩
  · unfold evaluateFull
    obtain ⟨x, hx⟩ := evalLoop_ready sem p (List.range s.predictors.n_cols) 0 s h
      (fun i hi => ⟨List.mem_range.mp hi, by rw [hr]; exact List.mem_range.mp hi⟩)
    rw [hx]
    exact ⟨{ s with networkOutput := x }, by rw [zero_add]⟩
  · unfold ewgFull
    rw [ewgB_ready sem p 0 s h hn (by rw [hr]; exact hn)]
    dsimp only
    obtain ⟨x, y, z, hx⟩ := ewgLoop_ready sem p
      ((List.range s.predictors.n_cols).drop 1) (exVal sem s 0) (exGrad sem s 0)
      { s with
          networkOutput := exOut sem s 0,
          error := exErr sem s 0,
          networkDelta := exDelta sem s 0 } h
      (fun i hi =>
        ⟨List.mem_range.mp (List.mem_of_mem_drop hi),
         by
           rw [hr]
           exact List.mem_range.mp (List.mem_of_mem_drop hi)⟩)
    rw [hx]
    have he : exVal sem { s with
        networkOutput := exOut sem s 0,
        error := exErr sem s 0,
        networkDelta := exDelta sem s 0 } = exVal sem s := rfl
    have hg : exGrad sem { s with
        networkOutput := exOut sem s 0,
        error := exErr sem s 0,
        networkDelta := exDelta sem s 0 } = exGrad sem s := rfl
    rw [he, hg]
    have hsum : ((List.range s.predictors.n_cols).map (exVal sem s)).sum =
        exVal sem s 0 +
          (((List.range s.predictors.n_cols).drop 1).map (exVal sem s)).sum := by
      conv_lhs => rw [range_eq_cons s.predictors.n_cols hn]
      rw [List.map_cons, List.sum_cons]
    rw [hsum]
    exact ⟨_, rfl⟩

theorem claim_C6_witness :
    (1 ≤ sA.predictors.n_cols) ∧
    (∃ (v : Nat → Rat) (g : Nat → Mat),
      (∀ i, i < sA.predictors.n_cols →
        ∃ si, evaluateB semA matEmpty i 1 sA = Res.ok (v i) si) ∧
      (∀ i, i < sA.predictors.n_cols →
        ∃ si, ewgB semA matEmpty i 1 sA = Res.ok (v i, g i) si) ∧
      (∃ s1, evaluateFull semA matEmpty sA =
        Res.ok (((List.range sA.predictors.n_cols).map v).sum) s1) ∧
      (∃ s2, ewgFull semA matEmpty sA =
        Res.ok (((List.range sA.predictors.n_cols).map v).sum,
          (((List.range sA.predictors.n_cols).drop 1).map g).foldl Mat.add (g 0))
          s2)) :=
  ⟨by decide,
   claim_C6 semA matEmpty sA
     ⟨by decide, rfl, rfl, by decide, fun h0 => absurd h0 (by decide)⟩
     (by decide) (by decide)⟩

/-- C7: for the (deterministic, column-independent) layer graph, Predict
with batchSize = n_cols and Predict with batchSize = 1 either throw the
same error with the same state, or produce the same results matrix, sized
[graph output size, n_cols]; the chunk loop covers the example columns in
order with the last chunk possibly smaller. -/
theorem claim_C7 (sem : Sem) (preds : Mat) (s : FFNState) :
    (∃ e s2, predict sem preds preds.n_cols s = Res.err e s2 ∧
      predict sem preds 1 s = Res.err e s2) ∨
    (∃ out s1 s2, predict sem preds preds.n_cols s = Res.ok out s1 ∧
      predict sem preds 1 s = Res.ok out s2 ∧
      out.n_rows = sem.outputSize s1.netInputDimensions ∧
      out.n_cols = preds.n_cols) := by
  cases hchk : checkNetwork sem predictName preds.n_rows true false s with
  | err e s2 =>
    refine Or.inl ⟨e, s2, ?_, ?_⟩ <;> (unfold predict; rw [hchk])
  | ok u s2 =>
    cases u
    have hready : Ready sem s2 :=
      checkNetwork_ok_ready sem predictName preds.n_rows true false s s2
        (Or.inr rfl) hchk
    by_cases hz : preds.n_cols = 0
    · have hc : ∀ bs2, predictChunks sem preds bs2 0 s2 = Res.ok [] s2 := by
        intro bs2
        rw [predictChunks, dif_pos (Or.inl (by omega))]
      refine Or.inr ⟨Mat.mk (sem.outputSize s2.netInputDimensions) preds.n_cols [],
        s2, s2, ?_, ?_, rfl, rfl⟩ <;>
        (unfold predict; rw [hchk]; dsimp only; rw [hc])
    · obtain ⟨x1, hx1⟩ := predictChunks_ready sem preds preds.n_cols preds.n_cols
        0 s2 hready hz (by omega)
      obtain ⟨x2, hx2⟩ := predictChunks_ready sem preds 1 preds.n_cols 0 s2 hready
        one_ne_zero (by omega)
      refine Or.inr ⟨Mat.mk (sem.outputSize s2.netInputDimensions) preds.n_cols
          (((preds.cols.drop 0).take (preds.n_cols - 0)).map
            (sem.forwardCol s2.netInputDimensions s2.parameters)),
        { s2 with networkOutput := x1 }, { s2 with networkOutput := x2 },
        ?_, ?_, rfl, rfl⟩
      · unfold predict
        rw [hchk]
        dsimp only
        rw [hx1]
      · unfold predict
        rw [hchk]
        dsimp only
        rw [hx2]

/-- C8: UpdateDimensions raises the size-mismatch error exactly when the
nonzero dimensionality argument disagrees with the product of the
recorded input dimensions (an unset shape is first recorded as flat, and
a zero argument never raises); when it raises, the Core state is left
completely unchanged — in particular the parameter buffer is untouched
and `inputDimensionsAreSet` stays unset. -/
theorem claim_C8 (fn : String) (d : Nat) (s : FFNState) :
    ((updateDimensions fn d s).isErr = true ↔
      d ≠ 0 ∧ (effectiveDims s.inputDimensions d).foldl (· * ·) 1 ≠ d) ∧
    (∀ e s2, updateDimensions fn d s = Res.err e s2 → s2 = s) :=
  ⟨updateDimensions_isErr fn d s,
   fun e s2 h => updateDimensions_err_state fn d s e s2 h⟩

theorem claim_C8_witness :
    (updateDimensions evaluateName 5 sDims23).isErr = true ∧
    (updateDimensions evaluateName 5 sDims23).state = sDims23 := by
  constructor
  · exact (claim_C8 evaluateName 5 sDims23).1.mpr (by decide)
  · exact (claim_C8 evaluateName 5 sDims23).2 (sizeMismatchMsg evaluateName)
      ((updateDimensions evaluateName 5 sDims23).state) (by decide)

/-- C9: the mini-batch Evaluate ignores the content of its `parameters`
argument entirely (the C++ parameter is unnamed): two calls with any two
argument matrices and the same Core state return the same scalar and the
same post state. -/
theorem claim_C9 (sem : Sem) (p q : Mat) (b bs : Nat) (s : FFNState) :
    evaluateB sem p b bs s = evaluateB sem q b bs s := rfl

/-- C10: on a ready Core with an empty stored dataset, the full-dataset
Evaluate returns 0 without touching the data or the state, while the
full-dataset EvaluateWithGradient unconditionally runs its first size-one
pass at column 0 and hits the out-of-bounds column access
`predictors.cols(0, 0)` (after having resized `networkOutput`). -/
theorem claim_C10 (sem : Sem) (p : Mat) (s : FFNState) (h : Ready sem s)
    (h0 : s.predictors.n_cols = 0) :
    evaluateFull sem p s = Res.ok 0 s ∧
    ewgFull sem p s = Res.err outOfBoundsMsg
      { s with networkOutput := Mat.unset (sem.outputSize s.netInputDimensions) 1 } := by
  constructor
  · unfold evaluateFull
    rw [h0]
    rfl
  · unfold ewgFull ewgB
    rw [checkNetwork_noop sem ewgName s.predictors.n_rows false s h]
    have hnc : ¬(0 ≤ 0 ∧ 0 < s.predictors.n_cols) := by
      rw [h0]
      omega
    simp only [Nat.add_sub_cancel, Mat.colsRange]
    rw [if_neg hnc]

theorem claim_C10_witness :
    evaluateFull semA matEmpty sNoData = Res.ok 0 sNoData ∧
    ewgFull semA matEmpty sNoData = Res.err outOfBoundsMsg
      { sNoData with
          networkOutput := Mat.unset (semA.outputSize sNoData.netInputDimensions) 1 } :=
  claim_C10 semA matEmpty sNoData
    ⟨by decide, rfl, rfl, by decide, fun h0 => absurd h0 (by decide)⟩
    (by decide)

end MlpackFFN
